import Mathlib

/-!
Verification development for the tldraw geo-shape rendering subsystem of
bbb-presentation-video.  The Python source under
`bbb_presentation_video/renderer/tldraw/` is shallowly embedded: pure
functions become Lean functions over `ℚ` (or over an arbitrary linear
ordered field when the source mixes in transcendental constants such as
`tau`), transcendental functions (`cos`, `sin`, `sqrt`, `atan2`) are passed
as explicit function parameters so that every definition stays executable,
Python exceptions become `Except`, and the seeded PRNG (`random.Random`)
becomes an explicit stream-consuming state.  Decimal literals of the source
are embedded as the rationals they denote.
-/

namespace BBB

/-- Python runtime errors that the embedded code can raise. -/
inductive PyErr where
  | zeroDivision
  deriving DecidableEq, Repr

/-- 2-D point / vector, as used throughout the renderer (`Position`, tuples). -/
abbrev Vec2 := ℚ × ℚ

/-- Modelled from the spec (§4.2, geometry kernel; the `vec` module is not
under `src/`): vector addition. -/
def vadd (a b : Vec2) : Vec2 := (a.1 + b.1, a.2 + b.2)

/-- Modelled from the spec (§4.2; `vec` module not under `src/`): vector
subtraction. -/
def vsub (a b : Vec2) : Vec2 := (a.1 - b.1, a.2 - b.2)

/-- Modelled from the spec (§4.2; `vec` module not under `src/`): scalar
multiple of a vector. -/
def vmul (a : Vec2) (k : ℚ) : Vec2 := (a.1 * k, a.2 * k)

/-- Modelled from the spec (§4.2; `vec` module not under `src/`): midpoint of
two points. -/
def vmed (a b : Vec2) : Vec2 := ((a.1 + b.1) / 2, (a.2 + b.2) / 2)

/-- Squared Euclidean distance between two points (helper for `vdist`). -/
def vdistSq (a b : Vec2) : ℚ := (b.1 - a.1) ^ 2 + (b.2 - a.2) ^ 2

/-- Modelled from the spec (§4.2; `vec` module not under `src/`): Euclidean
distance, with the square root supplied as an explicit function parameter so
the definition stays executable. -/
def vdist (sqrtf : ℚ → ℚ) (a b : Vec2) : ℚ := sqrtf (vdistSq a b)

/-- Modelled from the spec (§4.2; `vec` module not under `src/`): the angle
between two points, `atan2`-based; the `atan2` implementation is a parameter. -/
def vangle (atan2f : ℚ → ℚ → ℚ) (a b : Vec2) : ℚ := atan2f (b.2 - a.2) (b.1 - a.1)

/-- Modelled from the spec (§4.2; `vec` module not under `src/`): the vector of
a given length pointing in a given angle direction (`vec.from_angle`). -/
def vfrom_angle (cosf sinf : ℚ → ℚ) (angle length : ℚ) : Vec2 :=
  (cosf angle * length, sinf angle * length)

/-- Linear interpolation between two points (helper for `points_between`). -/
def vlerp (a b : Vec2) (t : ℚ) : Vec2 :=
  (a.1 + (b.1 - a.1) * t, a.2 + (b.2 - a.2) * t)

/-- Modelled from the spec (§4.2; `vec` module not under `src/`): `n` equally
spaced points between two endpoints, inclusive of both ends. -/
def points_between (a b : Vec2) (n : ℕ) : List Vec2 :=
  (List.range n).map (fun i => vlerp a b ((i : ℚ) / ((n : ℚ) - 1)))

/-! ## The seeded PRNG

Modelled from the spec (§4.1): `random.Random(seed)` is a deterministic
pseudo-random generator keyed by the seed string; its internals are CPython
standard library code, not part of this repository.  We model it as an infinite
stream of raw natural numbers (a pure function of the seed) together with a
cursor; `random()`, `uniform(lo, hi)` and `randrange(lo, hi)` each consume one
stream element.  `randrange(lo, hi)` honours Python's documented contract of
returning an integer in `[lo, hi)`. -/

/-- State of an embedded `random.Random` object: the raw entropy stream and the
position of the next element to consume. -/
structure PyRandom where
  stream : ℕ → ℕ
  idx : ℕ

/-- Modelled from the spec (§4.1): seeding keyed by the shape-id string; any
concrete deterministic function of the string works for the embedding. -/
def seedPyRandom (seed : String) : PyRandom :=
  ⟨fun n => (seed.foldl (fun a c => a * 31 + c.toNat) 7 + n * 2654435761) % 4294967296, 0⟩

/-- `random.random()`: a value in `[0, 1)`, consuming one stream element. -/
def pyRandomUnit (r : PyRandom) : ℚ × PyRandom :=
  (((r.stream r.idx % 1000000 : ℕ) : ℚ) / 1000000, ⟨r.stream, r.idx + 1⟩)

/-- `random.uniform(lo, hi)`: `lo + (hi - lo) * random()`. -/
def pyUniform (r : PyRandom) (lo hi : ℚ) : ℚ × PyRandom :=
  let (u, r') := pyRandomUnit r
  (lo + (hi - lo) * u, r')

/-- `random.randrange(lo, hi)`: an integer in `[lo, hi)` (Python's documented
contract), consuming one stream element. -/
def pyRandrange (r : PyRandom) (lo hi : ℕ) : ℕ × PyRandom :=
  (lo + r.stream r.idx % (hi - lo), ⟨r.stream, r.idx + 1⟩)

theorem pyRandrange_lt (r : PyRandom) (hi : ℕ) (h : 0 < hi) :
    (pyRandrange r 0 hi).1 < hi := by
  simpa [pyRandrange] using Nat.mod_lt _ h

/-! ## Style enumerations and the `Style` record (`utils.py`) -/

/-- `SizeStyle` from `utils.py`. -/
inductive SizeStyle where
  | SMALL | S | MEDIUM | M | LARGE | L | XL
  deriving DecidableEq, Repr

/-- `STROKE_WIDTHS` table from `utils.py`. -/
def STROKE_WIDTHS : SizeStyle → ℚ
  | .SMALL => 2 | .S => 2
  | .MEDIUM => 7/2 | .M => 7/2
  | .LARGE => 5 | .L => 5
  | .XL => 13/2

/-- `ColorStyle` from `utils.py`. -/
inductive ColorStyle where
  | WHITE | LIGHT_GRAY | GRAY | GREY | BLACK | GREEN | LIGHT_GREEN | CYAN
  | BLUE | LIGHT_BLUE | INDIGO | VIOLET | LIGHT_VIOLET | RED | LIGHT_RED
  | ORANGE | YELLOW | SEMI
  deriving DecidableEq, Repr

/-- `DashStyle` from `utils.py`. -/
inductive DashStyle where
  | DRAW | SOLID | DASHED | DOTTED
  deriving DecidableEq, Repr

/-- `FontStyle` from `utils.py`. -/
inductive FontStyle where
  | SCRIPT | SANS | ERIF | SERIF | MONO | DRAW
  deriving DecidableEq, Repr

/-- `AlignStyle` from `utils.py`. -/
inductive AlignStyle where
  | START | MIDDLE | END | JUSTIFY
  deriving DecidableEq, Repr

/-- `FillStyle` from `utils.py`. -/
inductive FillStyle where
  | NONE | SEMI | SOLID | PATTERN
  deriving DecidableEq, Repr

/-- The `Style` attrs class from `utils.py`, with its default field values. -/
structure Style where
  color : ColorStyle := .BLACK
  size : SizeStyle := .SMALL
  dash : DashStyle := .DRAW
  isFilled : Bool := false
  isClosed : Bool := false
  scale : ℚ := 1
  font : FontStyle := .SCRIPT
  textAlign : AlignStyle := .MIDDLE
  opacity : ℚ := 1
  fill : FillStyle := .NONE
  deriving DecidableEq, Repr

/-- `StyleData`: the incoming update dictionary consumed by
`Style.update_from_data`.  A key present in the Python dict is a `some` field
here (values already validated to their enum types; enum validation happens at
parse time, outside this core). -/
structure StyleData where
  color : Option ColorStyle := none
  size : Option SizeStyle := none
  dash : Option DashStyle := none
  isFilled : Option Bool := none
  scale : Option ℚ := none
  font : Option FontStyle := none
  textAlign : Option AlignStyle := none
  opacity : Option ℚ := none
  isClosed : Option Bool := none
  fill : Option FillStyle := none
  deriving DecidableEq, Repr

/-- `Style.update_from_data` from `utils.py`: each present key overwrites the
corresponding field, in source order; finally, if a `fill` key is present and
its value is not `NONE`, `isFilled` is forced `true`. -/
def Style.update_from_data (s : Style) (d : StyleData) : Style :=
  let s := { s with color := d.color.getD s.color }
  let s := { s with size := d.size.getD s.size }
  let s := { s with dash := d.dash.getD s.dash }
  let s := { s with isFilled := d.isFilled.getD s.isFilled }
  let s := { s with scale := d.scale.getD s.scale }
  let s := { s with font := d.font.getD s.font }
  let s := { s with textAlign := d.textAlign.getD s.textAlign }
  let s := { s with opacity := d.opacity.getD s.opacity }
  let s := { s with isClosed := d.isClosed.getD s.isClosed }
  match d.fill with
  | none => s
  | some f =>
    let s := { s with fill := f }
    if f = FillStyle.NONE then s else { s with isFilled := true }

/-! ## `circle_from_three_points` (`utils.py`, lines 279–305)

The source computes the determinant `a` and then unconditionally evaluates
`-b / (2 * a)`; Python float division raises `ZeroDivisionError` when `a` is
zero (three collinear points).  The embedding returns `Except.error
PyErr.zeroDivision` exactly in that case.  The radius is computed through
`hypot`, embedded via the explicit square-root parameter. -/

/-- `circle_from_three_points` from `utils.py`: circumscribed circle through
three points, or a raised `ZeroDivisionError` when the determinant is zero. -/
def circle_from_three_points (sqrtf : ℚ → ℚ) (A B C : Vec2) :
    Except PyErr (Vec2 × ℚ) :=
  let (x1, y1) := A
  let (x2, y2) := B
  let (x3, y3) := C
  let a := x1 * (y2 - y3) - y1 * (x2 - x3) + x2 * y3 - x3 * y2
  let b := (x1 * x1 + y1 * y1) * (y3 - y2) + (x2 * x2 + y2 * y2) * (y1 - y3)
    + (x3 * x3 + y3 * y3) * (y2 - y1)
  let c := (x1 * x1 + y1 * y1) * (x2 - x3) + (x2 * x2 + y2 * y2) * (x3 - x1)
    + (x3 * x3 + y3 * y3) * (x1 - x2)
  if 2 * a = 0 then Except.error PyErr.zeroDivision
  else
    let x := -b / (2 * a)
    let y := -c / (2 * a)
    Except.ok ((x, y), sqrtf ((x - x1) ^ 2 + (y - y1) ^ 2))

/-! ## `get_perfect_dash_props` (`utils.py`, lines 336–364) -/

/-- The dash-count computation inside `get_perfect_dash_props`:
`floor(length / dash_length / (2 * ratio))`, snapped down to a multiple of
`snap`, then clamped to at least 4. -/
def perfect_dash_count {α : Type} [LinearOrderedField α] [FloorRing α]
    (length dash_length ratio : α) (snap : ℤ) : ℤ :=
  let dashes := ⌊length / dash_length / (2 * ratio)⌋
  let dashes := dashes - dashes % snap
  max dashes 4

/-- `get_perfect_dash_props` from `utils.py`.  Returns the dash array
`[dash_length, gap_length]` and the dash offset.  Python default arguments are
`snap = 1`, `outset = true`, `length_ratio = 2`; callers in this embedding pass
them explicitly. -/
def get_perfect_dash_props {α : Type} [LinearOrderedField α] [FloorRing α]
    (length stroke_width : α) (style : DashStyle)
    (snap : ℤ) (outset : Bool) (length_ratio : α) : List α × α :=
  let params : Option (α × α × α) :=
    match style with
    | .DASHED => some (stroke_width * length_ratio, 1,
        if outset then stroke_width * length_ratio / 2 else 0)
    | .DOTTED => some (stroke_width / 100, 100, 0)
    | _ => none
  match params with
  | none => ([], 0)
  | some (dash_length, ratio, offset) =>
    let dashes := perfect_dash_count length dash_length ratio snap
    let gap_length := max dash_length
      ((length - (dashes : α) * dash_length) /
        (if outset then (dashes : α) else (dashes : α) - 1))
    ([dash_length, gap_length], offset)

/-! ## The smooth-path emitter (`utils.py`, `draw_smooth_path`, lines 421–457)

The cairo context's path construction calls are reified as a list of path
commands, so the emitted path is a value the theorems can inspect. -/

/-- `bezier_quad_to_cube` from `utils.py`: the two cubic control points of the
quadratic Bézier segment `(qp0, qp1, qp2)`. -/
def bezier_quad_to_cube (qp0 qp1 qp2 : Vec2) : Vec2 × Vec2 :=
  (vadd qp0 (vmul (vsub qp1 qp0) (2 / 3)), vadd qp2 (vmul (vsub qp1 qp2) (2 / 3)))

/-- A reified cairo path-construction command. -/
inductive PathCmd where
  | moveTo (p : Vec2)
  | curveTo (cp1 cp2 p : Vec2)
  | closePath
  deriving DecidableEq, Repr

/-- The `for point in points[1:]` loop body of `draw_smooth_path`: threads
`(prev_point, prev_mid)` and emits one cubic curve per point. -/
def smooth_path_loop (prev_point prev_mid : Vec2) : List Vec2 → List PathCmd × Vec2 × Vec2
  | [] => ([], prev_point, prev_mid)
  | p :: tl =>
    let mid := vmed prev_point p
    let (cp1, cp2) := bezier_quad_to_cube prev_mid prev_point mid
    let (cmds, fp, fm) := smooth_path_loop p mid tl
    (PathCmd.curveTo cp1 cp2 mid :: cmds, fp, fm)

/-- `draw_smooth_path` from `utils.py`: turns a point sequence into a path of
quadratic curves (emitted in cairo's cubic form), open or closed.  (In the
source the final `point` variable is only consumed through `mid`.) -/
def draw_smooth_path (points : List Vec2) (closed : Bool) : List PathCmd :=
  match points with
  | [] => []
  | p0 :: rest =>
    let last := rest.getLastD p0
    let prev_mid := if closed then vmed last p0 else p0
    let res := smooth_path_loop p0 prev_mid rest
    let cmds := res.1
    let fp := res.2.1
    let fm := res.2.2
    let mid := if closed then vmed fp p0 else last
    let cp := bezier_quad_to_cube fm fp mid
    PathCmd.moveTo prev_mid :: cmds
      ++ [PathCmd.curveTo cp.1 cp.2 mid]
      ++ (if closed then [PathCmd.closePath] else [])

/-- The point at which a reified path starts: the target of its first command
(paths emitted by `draw_smooth_path` always start with a `move_to`). -/
def pathStart : List PathCmd → Option Vec2
  | PathCmd.moveTo p :: _ => some p
  | PathCmd.curveTo _ _ p :: _ => some p
  | _ => none

/-- The current point after replaying a reified path: the target of the last
point-producing command (`close_path` keeps the point for our purposes; the
open-mode paths under study never emit it). -/
def pathEnd (cmds : List PathCmd) : Option Vec2 :=
  cmds.foldl
    (fun acc cmd =>
      match cmd with
      | PathCmd.moveTo p => some p
      | PathCmd.curveTo _ _ p => some p
      | PathCmd.closePath => acc)
    none

/-! ## The cloud pill geometry (`geo/cloud.py`) -/

/-- `get_pill_circumference` from `cloud.py` (lines 52–55), verbatim: note the
`max w h - tau` term.  Polymorphic over the scalar field so it can be
instantiated at `ℝ` with the true `tau = 2π`. -/
def get_pill_circumference {α : Type} [LinearOrderedField α] (tau w h : α) : α :=
  let radius := min w h / 2
  let long_side := max w h - tau
  tau * radius + 2 * long_side

/-- The pill circumference as computed internally by `get_pill_points`
(`cloud.py` lines 63–65): `tau * radius + 2 * (max - radius * 2)` with
`radius = min / 2`. -/
def pill_points_circumference {α : Type} [LinearOrderedField α] (tau w h : α) : α :=
  let radius := min w h / 2
  let long_side := max w h - radius * 2
  tau * radius + 2 * long_side

/-- `switchSize` from `cloud.py`: the size-category bucket
`{S ↦ 50, M ↦ 70, L ↦ 100, XL ↦ 130}`, default 70. -/
def switchSize : SizeStyle → ℚ
  | .S => 50
  | .M => 70
  | .L => 100
  | .XL => 130
  | _ => 70

/-- A section of the pill outline as used by `get_pill_points`: a straight
side (start point and unit direction) or a semicircular cap (center and start
angle). -/
inductive PillSection where
  | straight (start delta : Vec2)
  | arc (center : Vec2) (start_angle : ℚ)
  deriving Repr

/-- Length of one pill section (`cloud.py` lines 103, 109–111). -/
def pillSectionLength (tau long_side radius : ℚ) : PillSection → ℚ
  | .straight _ _ => long_side
  | .arc _ _ => tau / 2 * radius

/-- The `while section_offset > section_length` rotation of the section queue
inside `get_pill_points`.  The Python loop is unbounded; `fuel` bounds the
number of rotations (any terminating execution is captured by a large enough
fuel). -/
def pillRotate (tau long_side radius : ℚ) :
    ℕ → ℚ → List PillSection → ℚ × List PillSection
  | 0, offset, sections => (offset, sections)
  | fuel + 1, offset, sections =>
    match sections with
    | [] => (offset, [])
    | sec :: tl =>
      let len := pillSectionLength tau long_side radius sec
      if offset > len then
        pillRotate tau long_side radius fuel (offset - len) (tl ++ [sec])
      else (offset, sec :: tl)

/-- One iteration of the `for _ in range(numPoints)` loop of
`get_pill_points`: sample a point on the head section, advance the offset,
then rotate the section queue while the offset overruns the head section. -/
def pillStep (cosf sinf : ℚ → ℚ) (tau long_side radius spacing : ℚ) (fuel : ℕ)
    (st : List Vec2 × ℚ × List PillSection) (_ : ℕ) :
    List Vec2 × ℚ × List PillSection :=
  let (points, section_offset, sections) := st
  match sections with
  | [] => (points, section_offset, sections)
  | sec :: _ =>
    let point :=
      match sec with
      | .straight start delta => vadd start (vmul delta section_offset)
      | .arc center start_angle =>
        (center.1 + radius * cosf (start_angle + section_offset / radius),
         center.2 + radius * sinf (start_angle + section_offset / radius))
    let section_offset := section_offset + spacing
    let (section_offset, sections) :=
      pillRotate tau long_side radius fuel section_offset sections
    (points ++ [point], section_offset, sections)

/-- `get_pill_points` from `cloud.py` (lines 62–113): `numPoints` points evenly
spaced along the pill outline, walking the four straight/arc sections. -/
def get_pill_points (cosf sinf : ℚ → ℚ) (tau width height : ℚ) (numPoints : ℕ) :
    List Vec2 :=
  let radius := min width height / 2
  let long_side := max width height - radius * 2
  let circumference := tau * radius + 2 * long_side
  let spacing := circumference / (numPoints : ℚ)
  let sections : List PillSection :=
    if width > height then
      [ .straight (radius, 0) (1, 0),
        .arc (width - radius, radius) (-(tau / 4)),
        .straight (width - radius, height) (-1, 0),
        .arc (radius, radius) (tau / 4) ]
    else
      [ .straight (width, radius) (0, 1),
        .arc (radius, height - radius) 0,
        .straight (0, height - radius) (0, -1),
        .arc (radius, radius) (tau / 2) ]
  ((List.range numPoints).foldl
    (pillStep cosf sinf tau long_side radius spacing (numPoints * 4 + 16))
    ([], 0, sections)).1

/-! ## `get_cloud_arcs` (`cloud.py`, lines 127–206) -/

/-- An `Arc` record from `cloud.py`: one bump of the cloud outline; `center` is
optional in the source's own type (`Optional[Position]`). -/
structure CloudArc where
  leftPoint : Vec2
  rightPoint : Vec2
  arcPoint : Vec2
  center : Option Vec2
  radius : ℚ
  deriving DecidableEq, Repr

/-- The bump count of `get_cloud_arcs` (lines 131–135):
`max(ceil(pc / switchSize(size)), 6, ceil(pc / min(width, height)))`, computed
on the (buggy) `get_pill_circumference` value. -/
def cloudNumBumps (tau width height : ℚ) (size : SizeStyle) : ℕ :=
  let pc := get_pill_circumference tau width height
  max (max (⌈pc / switchSize size⌉.toNat) 6) (⌈pc / min width height⌉.toNat)

/-- `maxWiggleX` from `get_cloud_arcs` (line 151): zero when the width is under
20 units, otherwise 0.3 × the target bump protrusion. -/
def maxWiggleX (width protrusion : ℚ) : ℚ :=
  if width < 20 then 0 else protrusion * (3 / 10)

/-- `maxWiggleY` from `get_cloud_arcs` (line 152): zero when the height is
under 20 units, otherwise 0.3 × the target bump protrusion. -/
def maxWiggleY (height protrusion : ℚ) : ℚ :=
  if height < 20 then 0 else protrusion * (3 / 10)

/-- One iteration of the wiggle loop of `get_cloud_arcs` (lines 154–160):
perturb bump point `i` and bump point `n - i - 1`, consuming four random
values in source order. -/
def wiggleStep (n : ℕ) (mwx mwy : ℚ) (st : List Vec2 × PyRandom) (i : ℕ) :
    List Vec2 × PyRandom :=
  let pts := st.1
  let r0 := st.2
  let u1 := (pyRandomUnit r0).1
  let r1 := (pyRandomUnit r0).2
  let u2 := (pyRandomUnit r1).1
  let r2 := (pyRandomUnit r1).2
  let pts1 := pts.set i (vadd (pts.getD i (0, 0)) (u1 * mwx, u2 * mwy))
  let u3 := (pyRandomUnit r2).1
  let r3 := (pyRandomUnit r2).2
  let u4 := (pyRandomUnit r3).1
  let r4 := (pyRandomUnit r3).2
  let pts2 := pts1.set (n - i - 1) (vadd (pts1.getD (n - i - 1) (0, 0)) (u3 * mwx, u4 * mwy))
  (pts2, r4)

/-- The wiggle loop of `get_cloud_arcs` (lines 154–160):
`for i in range(floor(numBumps / 2))`, perturbing points `i` and
`numBumps - i - 1`. -/
def wiggle_bump_points (r : PyRandom) (pts : List Vec2) (mwx mwy : ℚ) :
    List Vec2 × PyRandom :=
  (List.range (pts.length / 2)).foldl (wiggleStep pts.length mwx mwy) (pts, r)

/-- The per-pair arc construction of `get_cloud_arcs` (lines 164–204): offset
the midpoint outward along the perpendicular bisector, clamp to the box, and
fit a circle through the three points.  Raises (propagates) the
`ZeroDivisionError` of `circle_from_three_points` when the three points are
collinear. -/
def cloudArcOf (sqrtf cosf sinf : ℚ → ℚ) (atan2f : ℚ → ℚ → ℚ) (tau width height : ℚ)
    (distOnPerimeter paddingX paddingY : ℚ) (leftWigglePoint rightWigglePoint : Vec2) :
    Except PyErr CloudArc :=
  let leftPoint := leftWigglePoint
  let rightPoint := rightWigglePoint
  let midPoint := vmed leftPoint rightPoint
  let offsetAngle := vangle atan2f leftPoint rightPoint - tau / 4
  let distanceBetweenOriginalPoints := vdist sqrtf leftPoint rightPoint
  let curvatureOffset := distOnPerimeter - distanceBetweenOriginalPoints
  let distanceBetweenWigglePoints := vdist sqrtf leftWigglePoint rightWigglePoint
  let relativeSize := distanceBetweenWigglePoints / distanceBetweenOriginalPoints
  let finalDistance := (max paddingX paddingY + curvatureOffset) * relativeSize
  let arcPoint := vadd midPoint (vfrom_angle cosf sinf offsetAngle finalDistance)
  let arcPoint : Vec2 :=
    (if arcPoint.1 < 0 then 0 else if arcPoint.1 > width then width else arcPoint.1,
     if arcPoint.2 < 0 then 0 else if arcPoint.2 > height then height else arcPoint.2)
  match circle_from_three_points sqrtf leftWigglePoint rightWigglePoint arcPoint with
  | Except.error e => Except.error e
  | Except.ok (ctr, _r) =>
    let radius := vdist sqrtf ctr leftWigglePoint
    Except.ok ⟨leftWigglePoint, rightWigglePoint, arcPoint, some ctr, radius⟩

/-- `get_cloud_arcs` from `cloud.py`: pill placement points, seeded wiggle,
then one fitted arc per consecutive bump-point pair (wrapping at the end).
The transcendental functions and `tau` are explicit parameters. -/
def get_cloud_arcs (sqrtf cosf sinf : ℚ → ℚ) (atan2f : ℚ → ℚ → ℚ) (tau : ℚ)
    (width height : ℚ) (seed : String) (size : SizeStyle) :
    Except PyErr (List CloudArc) :=
  let r := seedPyRandom seed
  let pillCircumference := get_pill_circumference tau width height
  let numBumps := cloudNumBumps tau width height size
  let targetBumpProtrusion := pillCircumference / (numBumps : ℚ) * (1 / 5)
  let innerWidth := max (width - targetBumpProtrusion * 2) 1
  let innerHeight := max (height - targetBumpProtrusion * 2) 1
  let paddingX := (width - innerWidth) / 2
  let paddingY := (height - innerHeight) / 2
  let distOnPerimeter := get_pill_circumference tau innerWidth innerHeight / (numBumps : ℚ)
  let bumpPoints := (get_pill_points cosf sinf tau innerWidth innerHeight numBumps).map
    (fun p => vadd p (paddingX, paddingY))
  let mwx := maxWiggleX width targetBumpProtrusion
  let mwy := maxWiggleY height targetBumpProtrusion
  let (bumpPoints, _r) := wiggle_bump_points r bumpPoints mwx mwy
  let n := bumpPoints.length
  (List.range n).mapM (fun i =>
    let j := if i = n - 1 then 0 else i + 1
    cloudArcOf sqrtf cosf sinf atan2f tau width height distOnPerimeter paddingX paddingY
      (bumpPoints.getD i (0, 0)) (bumpPoints.getD j (0, 0)))

/-! ## The star generator (`geo/star.py`, `get_star_strokes`, lines 30–58)

Polymorphic over the scalar field with explicit `cos`/`sin`, so the theorems
can instantiate `α := ℝ`, `cosf := Real.cos`, `sinf := Real.sin`,
`tau := 2 * π`. -/

/-- Vertex `i` of the star outline in `get_star_strokes`: with
`ratio = 1`, `ox = w / 2`, `oy = h / 2`, `ix = (ox * ratio) / 2`,
`iy = (oy * ratio) / 2`, odd-indexed vertices use the `i`-radii and
even-indexed ones the `o`-radii. -/
def star_point {α : Type} [Field α] (cosf sinf : α → α) (tau w h : α)
    (n : ℕ) (i : ℕ) : α × α :=
  let sides : α := (n : α)
  let step := tau / sides / 2
  let cx := w / 2
  let cy := h / 2
  let ratio : α := 1
  let ox := w / 2
  let oy := h / 2
  let ix := ox * ratio / 2
  let iy := oy * ratio / 2
  (cx + (if i % 2 = 1 then ix else ox) * cosf (-(tau / 4) + (i : α) * step),
   cy + (if i % 2 = 1 then iy else oy) * sinf (-(tau / 4) + (i : α) * step))

/-- The `points` list of `get_star_strokes`: the `sides * 2` star vertices. -/
def get_star_points {α : Type} [Field α] (cosf sinf : α → α) (tau w h : α)
    (n : ℕ) : List (α × α) :=
  (List.range (n * 2)).map (star_point cosf sinf tau w h n)

/-- `get_star_strokes` from `star.py`: consecutive vertex pairs (wrapping) with
their Euclidean lengths (`** 0.5` embedded through the `sqrtf` parameter). -/
def get_star_strokes {α : Type} [Field α] (cosf sinf sqrtf : α → α) (tau w h : α)
    (n : ℕ) : List ((α × α) × (α × α) × α) :=
  let points := get_star_points cosf sinf tau w h n
  (List.range points.length).map (fun i =>
    let pos1 := points.getD i (0, 0)
    let pos2 := points.getD ((i + 1) % points.length) (0, 0)
    (pos1, pos2, sqrtf ((pos2.1 - pos1.1) ^ 2 + (pos2.2 - pos1.2) ^ 2)))

/-- Squared distance of a point from a center, used to state the star-radius
claims. -/
def distSqFrom {α : Type} [Field α] (center p : α × α) : α :=
  (p.1 - center.1) ^ 2 + (p.2 - center.2) ^ 2

/-! ## The jittered stroke-point generators (`geo/diamond.py`, `geo/rhombus.py`,
`geo/hexagon.py`)

Each generator seeds `random.Random` with the shape id, jitters the ideal
corners with `uniform(-variation, variation)` (two calls per corner, in source
order), picks a starting edge with `randrange`, rotates and concatenates the
interpolated edges, and hands the sequence to the external
`perfect_freehand.get_stroke_points` — here the explicit parameter `fh`
(spec §2: the freehand synthesizer is an external black-box transform). -/

/-- A geo shape record as the generators consume it: size plus style. -/
structure GeoShape where
  size : Vec2
  style : Style
  deriving DecidableEq, Repr

/-- The jittered corners and the starting-edge pick of
`diamond_stroke_points` (`diamond.py` lines 31–73): eight `uniform` draws for
the four corners `t, r, b, l` in source order, then `randrange(0, 3)`. -/
def diamond_corners_rm (id : String) (shape : GeoShape) :
    (Vec2 × Vec2 × Vec2 × Vec2) × ℕ :=
  let rnd := seedPyRandom id
  let width := shape.size.1
  let height := shape.size.2
  let half_width := width / 2
  let half_height := height / 2
  let stroke_width := STROKE_WIDTHS shape.style.size
  let variation := stroke_width * (3 / 4)
  let (tx, rnd) := pyUniform rnd (-variation) variation
  let (ty, rnd) := pyUniform rnd (-variation) variation
  let (rx, rnd) := pyUniform rnd (-variation) variation
  let (ry, rnd) := pyUniform rnd (-variation) variation
  let (bx, rnd) := pyUniform rnd (-variation) variation
  let (by_, rnd) := pyUniform rnd (-variation) variation
  let (lx, rnd) := pyUniform rnd (-variation) variation
  let (ly, rnd) := pyUniform rnd (-variation) variation
  let t := (half_width + tx, ty)
  let r := (width + rx, half_height + ry)
  let b := (half_width + bx, height + by_)
  let l := (lx, half_height + ly)
  let (rm, _) := pyRandrange rnd 0 3
  ((t, r, b, l), rm)

/-- `diamond_stroke_points` from `diamond.py`: 32 interpolated points per edge,
edges rotated to start at the picked edge, first edge repeated at the end,
then the freehand synthesizer `fh` applied with
`(points, size := stroke_width, streamline := 0.3, last := true)`. -/
def diamond_stroke_points (fh : List Vec2 → ℚ → ℚ → Bool → List Vec2)
    (id : String) (shape : GeoShape) : List Vec2 :=
  let ((t, r, b, l), rm) := diamond_corners_rm id shape
  let stroke_width := STROKE_WIDTHS shape.style.size
  let lines := [points_between t r 32, points_between r b 32,
    points_between b l 32, points_between l t 32]
  let lines := lines.drop rm ++ lines.take rm
  let points := lines.getD 0 [] ++ lines.getD 1 [] ++ lines.getD 2 []
    ++ lines.getD 3 [] ++ lines.getD 0 []
  fh points stroke_width (3 / 10) true

/-- The jittered corners and starting-edge pick of `rhombus_stroke_points`
(`rhombus.py` lines 32–73): same call sequence as the diamond — eight
`uniform` draws then `randrange(0, 3)`. -/
def rhombus_corners_rm (id : String) (shape : GeoShape) :
    (Vec2 × Vec2 × Vec2 × Vec2) × ℕ :=
  let rnd := seedPyRandom id
  let width := shape.size.1
  let height := shape.size.2
  let x_offset := min (width * (38 / 100)) (height * (38 / 100))
  let stroke_width := STROKE_WIDTHS shape.style.size
  let variation := stroke_width * (3 / 4)
  let (tlx, rnd) := pyUniform rnd (-variation) variation
  let (tly, rnd) := pyUniform rnd (-variation) variation
  let (trx, rnd) := pyUniform rnd (-variation) variation
  let (try_, rnd) := pyUniform rnd (-variation) variation
  let (brx, rnd) := pyUniform rnd (-variation) variation
  let (bry, rnd) := pyUniform rnd (-variation) variation
  let (blx, rnd) := pyUniform rnd (-variation) variation
  let (bly, rnd) := pyUniform rnd (-variation) variation
  let tl := (x_offset + tlx, tly)
  let tr := (width + trx, 0 + try_)
  let br := (width - x_offset + brx, height + bry)
  let bl := (blx, height + bly)
  let (rm, _) := pyRandrange rnd 0 3
  ((tl, tr, br, bl), rm)

/-- Modelled from the spec (§4.2; `getPolygonVertices` is imported from
`utils.py` but absent from the source under `src/`): the vertices of a regular
`n`-gon inscribed in a `w × h` box, paired as consecutive strokes; only the
first component (the vertex) is consumed by `hexagon_stroke_points`. -/
def getPolygonVertices (cosf sinf : ℚ → ℚ) (tau w h : ℚ) (n : ℕ) :
    List (Vec2 × Vec2) :=
  let verts := (List.range n).map (fun i =>
    (w / 2 + w / 2 * cosf ((i : ℚ) * tau / (n : ℚ) - tau / 4),
     h / 2 + h / 2 * sinf ((i : ℚ) * tau / (n : ℚ) - tau / 4)))
  (List.range n).map (fun i =>
    (verts.getD i (0, 0), verts.getD ((i + 1) % n) (0, 0)))

/-- The jittered vertices and starting-edge pick of `hexagon_stroke_points`
(`hexagon.py` lines 33–95): twelve `uniform` draws for the six vertices, then
`randrange(0, sides - 1)` with `sides = 6`. -/
def hexagon_vertices_rm (cosf sinf : ℚ → ℚ) (tau : ℚ) (id : String)
    (shape : GeoShape) : List Vec2 × ℕ :=
  let rnd := seedPyRandom id
  let width := max 0 shape.size.1
  let height := max 0 shape.size.2
  let stroke_width := STROKE_WIDTHS shape.style.size
  let sides := 6
  let strokes := getPolygonVertices cosf sinf tau width height sides
  let variation := stroke_width * (3 / 4)
  let res := (List.range sides).foldl
    (fun (st : List Vec2 × PyRandom) i =>
      let acc := st.1
      let r0 := st.2
      let v := (strokes.getD i ((0, 0), (0, 0))).1
      let dx := (pyUniform r0 (-variation) variation).1
      let r1 := (pyUniform r0 (-variation) variation).2
      let dy := (pyUniform r1 (-variation) variation).1
      let r2 := (pyUniform r1 (-variation) variation).2
      (acc ++ [(v.1 + dx, v.2 + dy)], r2))
    ([], rnd)
  (res.1, (pyRandrange res.2 0 (sides - 1)).1)

/-! ## The drawing-context state model (for the finalizers)

Cairo's graphics state, restricted to the fields the finalizer claims are
about: the current transform matrix (its linear part — `ctx.rotate` composes a
rotation onto it and leaves the translation untouched), the dash pattern, and
the line width.  `save` pushes a snapshot of the graphics state; `restore`
pops it.  Path construction, source colors and stroking/filling do not touch
these fields and are not modelled. -/

/-- A 2×2 linear transform matrix `[[a, b], [c, d]]`. -/
structure Mat2 (α : Type) where
  a : α
  b : α
  c : α
  d : α
  deriving DecidableEq, Repr

/-- Matrix product of two 2×2 matrices. -/
def matMul {α : Type} [Field α] (m n : Mat2 α) : Mat2 α :=
  ⟨m.a * n.a + m.b * n.c, m.a * n.b + m.b * n.d,
   m.c * n.a + m.d * n.c, m.c * n.b + m.d * n.d⟩

/-- The identity transform. -/
def idMat2 {α : Type} [Field α] : Mat2 α := ⟨1, 0, 0, 1⟩

/-- The rotation matrix `[[cos θ, -sin θ], [sin θ, cos θ]]` that `ctx.rotate θ`
composes onto the CTM. -/
def rotMat {α : Type} [Field α] (co si : α) : Mat2 α := ⟨co, -si, si, co⟩

/-- The modelled cairo graphics state: transform, dash pattern, line width. -/
structure GState (α : Type) where
  ctm : Mat2 α
  dashArray : List α
  dashOffset : α
  lineWidth : α
  deriving DecidableEq, Repr

/-- The modelled cairo context: current graphics state plus the save/restore
stack. -/
structure CtxState (α : Type) where
  g : GState α
  stack : List (GState α)
  deriving DecidableEq, Repr

/-- `ctx.rotate θ`, given `cos θ` and `sin θ`: composes the rotation onto the
CTM. -/
def ctxRotate {α : Type} [Field α] (co si : α) (st : CtxState α) : CtxState α :=
  { st with g := { st.g with ctm := matMul st.g.ctm (rotMat co si) } }

/-- `ctx.save()`: pushes a snapshot of the graphics state. -/
def ctxSave {α : Type} (st : CtxState α) : CtxState α :=
  { st with stack := st.g :: st.stack }

/-- `ctx.restore()`: pops the last snapshot (no-op on an empty stack, which
cairo reports as an error; the embedded code always balances its pairs). -/
def ctxRestore {α : Type} (st : CtxState α) : CtxState α :=
  match st.stack with
  | [] => st
  | g :: tl => ⟨g, tl⟩

/-- `ctx.set_dash(array, offset)`. -/
def ctxSetDash {α : Type} (arr : List α) (offset : α) (st : CtxState α) : CtxState α :=
  { st with g := { st.g with dashArray := arr, dashOffset := offset } }

/-- `ctx.set_line_width(w)`. -/
def ctxSetLineWidth {α : Type} (w : α) (st : CtxState α) : CtxState α :=
  { st with g := { st.g with lineWidth := w } }

/-- Modelled from the spec (§6, label collaborator; `finalize_v2_label` lives
outside `src/`): the external text-label finalization routine, assumed to
leave the modelled graphics state fields unchanged. -/
def finalize_v2_label_ctx {α : Type} (st : CtxState α) : CtxState α := st

/-- The graphics-state effect of `draw_diamond` / `draw_star` / the other
sketchy draw paths: they build paths, fill/stroke and set the line width, but
never touch dash or transform, and use no save/restore. -/
def draw_sketchy_ctx {α : Type} [Field α] (stroke_width : α) (st : CtxState α) :
    CtxState α :=
  ctxSetLineWidth stroke_width st

/-- One `set_dash(get_perfect_dash_props(length, stroke_width, style.dash))`
call of the per-segment dash loops (defaults `snap = 1`, `outset = true`,
`length_ratio = 2`). -/
def setDashForLen {α : Type} [LinearOrderedField α] [FloorRing α]
    (stroke_width : α) (dashStyle : DashStyle) (s : CtxState α) (len : α) :
    CtxState α :=
  let p := get_perfect_dash_props len stroke_width dashStyle 1 true 2
  ctxSetDash p.1 p.2 s

/-- The graphics-state effect of `dash_diamond` (`diamond.py` lines 121–160):
sets the line width, then per edge sets the dash pattern from
`get_perfect_dash_props` and strokes; no save/restore. -/
def dash_diamond_ctx {α : Type} [LinearOrderedField α] [FloorRing α]
    (sqrtf : α → α) (style : Style) (width height : α) (st : CtxState α) :
    CtxState α :=
  let stroke_width := ((STROKE_WIDTHS style.size : ℚ) : α) * (809 / 500)
  let sw := 1 + stroke_width
  let w := max 0 (width - sw / 2)
  let h := max 0 (height - sw / 2)
  let half_width := w / 2
  let half_height := h / 2
  let hyp := fun x y => sqrtf (x ^ 2 + y ^ 2)
  let lengths := [hyp (w - half_width) half_height, hyp (half_width - w) half_height,
    hyp half_width half_height, hyp half_width half_height]
  let st := ctxSetLineWidth sw st
  lengths.foldl (setDashForLen stroke_width style.dash) st

/-- The graphics-state effect of `dash_cloud` (`cloud.py` lines 225–268): a
`save`, line-width and dash changes inside, then a matching `restore`. -/
def dash_cloud_ctx {α : Type} [LinearOrderedField α] [FloorRing α]
    (style : Style) (w h : α) (st : CtxState α) : CtxState α :=
  let stroke_width := ((STROKE_WIDTHS style.size : ℚ) : α)
  let sw := 1 + stroke_width * (809 / 500)
  let st := ctxSave st
  let st := ctxSetLineWidth sw st
  let (arr, off) := get_perfect_dash_props |2 * w + 2 * h| sw style.dash 2 false 2
  let st := ctxSetDash arr off st
  ctxRestore st

/-- Modelled from the spec (§4.5; `finalize_dash_geo` is imported from
`utils.py` but absent from the source under `src/`): the dash/solid planner
strokes each segment after setting its independently recomputed dash
parameters; no save/restore around the dash changes. -/
def finalize_dash_geo_ctx {α : Type} [LinearOrderedField α] [FloorRing α]
    (segment_lengths : List α) (style : Style) (st : CtxState α) : CtxState α :=
  let stroke_width := ((STROKE_WIDTHS style.size : ℚ) : α)
  let sw := 1 + stroke_width * (809 / 500)
  let st := ctxSetLineWidth sw st
  segment_lengths.foldl (setDashForLen stroke_width style.dash) st

/-- The graphics-state effect of `finalize_diamond` (`diamond.py` lines
163–177): `ctx.rotate(shape.rotation)` with no save/restore, then the sketchy
or dashed branch, then the label finalizer. -/
def finalize_diamond_ctx {α : Type} [LinearOrderedField α] [FloorRing α]
    (cosf sinf sqrtf : α → α) (rotation : α) (style : Style) (width height : α)
    (st : CtxState α) : CtxState α :=
  let st := ctxRotate (cosf rotation) (sinf rotation) st
  let st :=
    if style.dash = DashStyle.DRAW then
      draw_sketchy_ctx ((STROKE_WIDTHS style.size : ℚ) : α) st
    else dash_diamond_ctx sqrtf style width height st
  finalize_v2_label_ctx st

/-- The graphics-state effect of `finalize_star` (`star.py` lines 132–144):
`ctx.rotate(shape.rotation)` with no save/restore, then the sketchy branch or
`dash_star` (which delegates to the dash planner), then the label finalizer. -/
def finalize_star_ctx {α : Type} [LinearOrderedField α] [FloorRing α]
    (cosf sinf sqrtf : α → α) (tau : α) (rotation : α) (style : Style)
    (width height : α) (st : CtxState α) : CtxState α :=
  let st := ctxRotate (cosf rotation) (sinf rotation) st
  let w := max 0 width
  let h := max 0 height
  let st :=
    if style.dash = DashStyle.DRAW then
      draw_sketchy_ctx ((STROKE_WIDTHS style.size : ℚ) : α) st
    else
      finalize_dash_geo_ctx
        ((get_star_strokes cosf sinf sqrtf tau w h 5).map (fun s => s.2.2)) style st
  finalize_v2_label_ctx st

/-- The graphics-state effect of `finalize_cloud` (`cloud.py` lines 271–278):
`ctx.rotate(shape.rotation)` with no save/restore, then `dash_cloud`
(unconditionally), then the label finalizer. -/
def finalize_cloud_ctx {α : Type} [LinearOrderedField α] [FloorRing α]
    (cosf sinf : α → α) (rotation : α) (style : Style) (width height : α)
    (st : CtxState α) : CtxState α :=
  let st := ctxRotate (cosf rotation) (sinf rotation) st
  let w := max 0 width
  let h := max 0 height
  let st := dash_cloud_ctx style w h st
  finalize_v2_label_ctx st

/-! # Theorems -/

/-- **C1.**  The claim is refuted by the code: `circle_from_three_points` has
no degenerate-case check at all.  On the collinear triple
`(0,0), (1,0), (2,0)` the determinant `a` is `0` and the source evaluates
`-b / (2 * a)`, which raises `ZeroDivisionError` in Python — it neither
reports a degenerate case nor lets `get_cloud_arcs` produce a center-less
`Arc` (the `center is None` fallbacks downstream are dead code).  This theorem
evaluates the embedded solver at that failing input. -/
theorem circle_from_three_points_collinear_raises (sqrtf : ℚ → ℚ) :
    circle_from_three_points sqrtf (0, 0) (1, 0) (2, 0)
      = Except.error PyErr.zeroDivision := by
  norm_num [circle_from_three_points]

/-- **C9 counterexample.**  The fill/isFilled invariant is not preserved by
every `update_from_data` call: starting from the default style, an update
setting `fill` to `SOLID` (which forces `isFilled`), followed by an update
carrying only `isFilled = false`, leaves a style with a non-`NONE` fill and
`isFilled = false`. -/
theorem style_fill_invariant_counterexample :
    (Style.update_from_data
        (Style.update_from_data {} { fill := some FillStyle.SOLID })
        { isFilled := some false }).fill = FillStyle.SOLID ∧
    (Style.update_from_data
        (Style.update_from_data {} { fill := some FillStyle.SOLID })
        { isFilled := some false }).isFilled = false := by
  decide

/-- **C9 (amended).**  Immediately after any `update_from_data` call whose
data carries a non-`NONE` fill value, `isFilled` is true: the forcing happens
at set time (it is not an invariant preserved by later updates that set
`isFilled` without a fill key). -/
theorem style_update_with_fill_forces_isFilled (s : Style) (d : StyleData)
    (f : FillStyle) (hd : d.fill = some f) (hf : f ≠ FillStyle.NONE) :
    (Style.update_from_data s d).isFilled = true := by
  unfold Style.update_from_data
  rw [hd]
  simp [hf]

/-- Witness for `style_update_with_fill_forces_isFilled` at the concrete data
`{fill: solid}` applied to the default style. -/
theorem style_update_with_fill_forces_isFilled_witness :
    ({ fill := some FillStyle.SOLID } : StyleData).fill = some FillStyle.SOLID ∧
    FillStyle.SOLID ≠ FillStyle.NONE ∧
    (Style.update_from_data {} { fill := some FillStyle.SOLID }).isFilled = true :=
  ⟨rfl, by decide,
    style_update_with_fill_forces_isFilled {} { fill := some FillStyle.SOLID }
      FillStyle.SOLID rfl (by decide)⟩

/-- **C4.**  `get_perfect_dash_props` with default arguments
(`snap = 1`, `outset = true`, `length_ratio = 2`): for `DASHED` the dash array
is `[stroke_width * 2, gap]` with offset half the dash length, the dash count
is at least 4, and `count * (dash + gap)` is at least `length` (exactly
`length` whenever the gap branch is taken); for `DOTTED` the dash length is
`stroke_width / 100` (the `ratio = 100` bucket) and the offset is 0.  At the
claim's instance `length = 100, stroke_width = 4`, the count is 6 and
`6 * (8 + 26/3) = 100` exactly. -/
theorem get_perfect_dash_props_spec (l sw : ℚ) (_hsw : 0 < sw) :
    (get_perfect_dash_props l sw DashStyle.DASHED 1 true 2).1.head? = some (sw * 2) ∧
    (get_perfect_dash_props l sw DashStyle.DASHED 1 true 2).2 = sw * 2 / 2 ∧
    4 ≤ perfect_dash_count l (sw * 2) 1 1 ∧
    l ≤ (perfect_dash_count l (sw * 2) 1 1 : ℚ) *
      (sw * 2 + (get_perfect_dash_props l sw DashStyle.DASHED 1 true 2).1.getD 1 0) ∧
    (get_perfect_dash_props l sw DashStyle.DOTTED 1 true 2).1.head? = some (sw / 100) ∧
    (get_perfect_dash_props l sw DashStyle.DOTTED 1 true 2).2 = 0 ∧
    get_perfect_dash_props (100 : ℚ) 4 DashStyle.DASHED 1 true 2 = ([8, 26 / 3], 4) ∧
    perfect_dash_count (100 : ℚ) 8 1 1 = 6 ∧
    (6 : ℚ) * (8 + 26 / 3) = 100 := by
  have hcount : 4 ≤ perfect_dash_count l (sw * 2) 1 1 := le_max_right _ 4
  refine ⟨by simp [get_perfect_dash_props], by simp [get_perfect_dash_props],
    hcount, ?_, by simp [get_perfect_dash_props], by simp [get_perfect_dash_props],
    by norm_num [get_perfect_dash_props, perfect_dash_count, max_def],
    by norm_num [perfect_dash_count, max_def], by norm_num⟩
  have hD : (4 : ℚ) ≤ (perfect_dash_count l (sw * 2) 1 1 : ℚ) := by
    exact_mod_cast hcount
  have hDpos : (0 : ℚ) < (perfect_dash_count l (sw * 2) 1 1 : ℚ) := by linarith
  set D : ℚ := (perfect_dash_count l (sw * 2) 1 1 : ℚ) with hDdef
  have hgap : (get_perfect_dash_props l sw DashStyle.DASHED 1 true 2).1.getD 1 0
      = max (sw * 2) ((l - D * (sw * 2)) / D) := by
    simp [get_perfect_dash_props, hDdef]
  rw [hgap]
  have h1 : (l - D * (sw * 2)) / D ≤ max (sw * 2) ((l - D * (sw * 2)) / D) :=
    le_max_right _ _
  have h2 : l - D * (sw * 2) ≤ D * max (sw * 2) ((l - D * (sw * 2)) / D) := by
    calc l - D * (sw * 2) = D * ((l - D * (sw * 2)) / D) := by
          field_simp
      _ ≤ D * max (sw * 2) ((l - D * (sw * 2)) / D) := by
          exact mul_le_mul_of_nonneg_left h1 (le_of_lt hDpos)
  nlinarith

/-- Witness for `get_perfect_dash_props_spec` at the claim's instance
`length = 100`, `stroke_width = 4`. -/
theorem get_perfect_dash_props_spec_witness :
    (0 : ℚ) < 4 ∧
    get_perfect_dash_props (100 : ℚ) 4 DashStyle.DASHED 1 true 2 = ([8, 26 / 3], 4) ∧
    perfect_dash_count (100 : ℚ) 8 1 1 = 6 :=
  ⟨by norm_num,
    (get_perfect_dash_props_spec 100 4 (by norm_num)).2.2.2.2.2.2.1,
    (get_perfect_dash_props_spec 100 4 (by norm_num)).2.2.2.2.2.2.2.1⟩

/-- **C8.**  `draw_smooth_path` in open mode: for any nonempty point sequence
the emitted path starts with a `move_to` at exactly the first input point, and
its final curve ends exactly at the last input point (no wraparound
smoothing and no `close_path`). -/
theorem draw_smooth_path_open_endpoints (p0 : Vec2) (rest : List Vec2) :
    pathStart (draw_smooth_path (p0 :: rest) false) = some p0 ∧
    pathEnd (draw_smooth_path (p0 :: rest) false) = some (rest.getLastD p0) := by
  constructor
  · simp [draw_smooth_path, pathStart]
  · simp [draw_smooth_path, pathEnd, List.foldl_append]

/-- **C5.**  Determinism of the stroke-point generators: with the PRNG
modelled as a pure function of the seed string (spec §4.1), the generators are
pure functions of their inputs, so two calls with the same id/shape (and the
same external freehand transform and transcendental-function parameters) agree
element-wise, for the diamond generator and for `get_cloud_arcs`. -/
theorem stroke_generators_deterministic
    (fh : List Vec2 → ℚ → ℚ → Bool → List Vec2) (id : String) (shape : GeoShape)
    (sqrtf cosf sinf : ℚ → ℚ) (atan2f : ℚ → ℚ → ℚ) (tau width height : ℚ)
    (seed : String) (size : SizeStyle) :
    ((diamond_stroke_points fh id shape).length
        = (diamond_stroke_points fh id shape).length ∧
      ∀ (i : ℕ), (diamond_stroke_points fh id shape)[i]?
        = (diamond_stroke_points fh id shape)[i]?) ∧
    ∀ (i : ℕ),
      ((get_cloud_arcs sqrtf cosf sinf atan2f tau width height seed size).toOption.getD [])[i]?
      = ((get_cloud_arcs sqrtf cosf sinf atan2f tau width height seed size).toOption.getD [])[i]? :=
  ⟨⟨rfl, fun _ => rfl⟩, fun _ => rfl⟩

/-- **C10.**  The starting-edge picks: the diamond and rhombus generators draw
from `randrange(0, 3)` (never edge 3 of 4), the hexagon generator from
`randrange(0, sides - 1) = randrange(0, 5)` (never edge 5 of 6) — for every
seed string and shape. -/
theorem start_edge_ranges (id : String) (shape : GeoShape)
    (cosf sinf : ℚ → ℚ) (tau : ℚ) :
    (diamond_corners_rm id shape).2 < 3 ∧
    (rhombus_corners_rm id shape).2 < 3 ∧
    (hexagon_vertices_rm cosf sinf tau id shape).2 < 5 :=
  ⟨pyRandrange_lt _ 3 (by norm_num), pyRandrange_lt _ 3 (by norm_num),
    pyRandrange_lt _ 5 (by norm_num)⟩

/-- **C7.**  The pill-circumference bug, evaluated at the failing input
`w = 200, h = 100` over `ℝ` with the true `tau = 2π`:
`get_pill_circumference` subtracts `tau` instead of `radius * 2` from the long
side (its own sibling `get_pill_points` uses `radius * 2`), so it returns
`96π + 400` where the rectangle-with-semicircular-caps perimeter (and
`get_pill_points`'s internal circumference) is `100π + 200`; the two differ. -/
theorem get_pill_circumference_bug :
    get_pill_circumference (2 * Real.pi) 200 100 = 96 * Real.pi + 400 ∧
    pill_points_circumference (2 * Real.pi) 200 100 = 100 * Real.pi + 200 ∧
    get_pill_circumference (2 * Real.pi) 200 100
      ≠ pill_points_circumference (2 * Real.pi) 200 100 := by
  have hmin : min (200 : ℝ) 100 = 100 := by norm_num
  have hmax : max (200 : ℝ) 100 = 200 := by norm_num
  have hpi : Real.pi < 3.15 := Real.pi_lt_d2
  refine ⟨?_, ?_, ?_⟩
  · simp only [get_pill_circumference, hmin, hmax]; ring
  · simp only [pill_points_circumference, hmin, hmax]; ring
  · simp only [get_pill_circumference, pill_points_circumference, hmin, hmax]
    intro hEq
    nlinarith [Real.pi_gt_three]

/-- Helper: the distance from the center to a point offset by `a` along a
unit direction `(c, s)` is `a` (for `0 ≤ a`). -/
theorem sqrt_radial_dist (c s a b : ℝ) (h : s ^ 2 + c ^ 2 = 1) (ha : 0 ≤ a) :
    Real.sqrt ((b + a * c - b) ^ 2 + (b + a * s - b) ^ 2) = a := by
  rw [show (b + a * c - b) ^ 2 + (b + a * s - b) ^ 2 = a ^ 2 by
    linear_combination a ^ 2 * h, Real.sqrt_sq ha]

/-- **C3 counterexample.**  In the square case `w = h = 2` the odd-indexed
(inner) star vertex 1 lies at distance `1/2` from the box center `(1, 1)`
while the even-indexed (outer) vertex 0 lies at distance `1`: the distances
differ, refuting "odd-indexed vertices lie at the same distance from the box
center as even-indexed vertices". -/
theorem star_inner_vertex_counterexample :
    Real.sqrt (distSqFrom ((2 : ℝ) / 2, (2 : ℝ) / 2)
        (star_point Real.cos Real.sin (2 * Real.pi) 2 2 5 1)) = 1 / 2 ∧
    Real.sqrt (distSqFrom ((2 : ℝ) / 2, (2 : ℝ) / 2)
        (star_point Real.cos Real.sin (2 * Real.pi) 2 2 5 0)) = 1 ∧
    Real.sqrt (distSqFrom ((2 : ℝ) / 2, (2 : ℝ) / 2)
        (star_point Real.cos Real.sin (2 * Real.pi) 2 2 5 1))
      ≠ Real.sqrt (distSqFrom ((2 : ℝ) / 2, (2 : ℝ) / 2)
        (star_point Real.cos Real.sin (2 * Real.pi) 2 2 5 0)) := by
  have h1 : Real.sqrt (distSqFrom ((2 : ℝ) / 2, (2 : ℝ) / 2)
      (star_point Real.cos Real.sin (2 * Real.pi) 2 2 5 1)) = 1 / 2 := by
    simp only [star_point, distSqFrom, show (1 % 2 = 1) = True by simp, if_true]
    rw [sqrt_radial_dist
        (Real.cos (-(2 * Real.pi / 4) + ((1 : ℕ) : ℝ) * (2 * Real.pi / ((5 : ℕ) : ℝ) / 2)))
        (Real.sin (-(2 * Real.pi / 4) + ((1 : ℕ) : ℝ) * (2 * Real.pi / ((5 : ℕ) : ℝ) / 2)))
        ((2 : ℝ) / 2 * 1 / 2) ((2 : ℝ) / 2)
        (Real.sin_sq_add_cos_sq _) (by norm_num)]
    norm_num
  have h0 : Real.sqrt (distSqFrom ((2 : ℝ) / 2, (2 : ℝ) / 2)
      (star_point Real.cos Real.sin (2 * Real.pi) 2 2 5 0)) = 1 := by
    simp only [star_point, distSqFrom, show (0 % 2 = 1) = False by simp, if_false]
    rw [sqrt_radial_dist
        (Real.cos (-(2 * Real.pi / 4) + ((0 : ℕ) : ℝ) * (2 * Real.pi / ((5 : ℕ) : ℝ) / 2)))
        (Real.sin (-(2 * Real.pi / 4) + ((0 : ℕ) : ℝ) * (2 * Real.pi / ((5 : ℕ) : ℝ) / 2)))
        ((2 : ℝ) / 2) ((2 : ℝ) / 2)
        (Real.sin_sq_add_cos_sq _) (by norm_num)]
    norm_num
  exact ⟨h1, h0, by rw [h1, h0]; norm_num⟩

/-- **C3 (amended).**  The hard-coded ratio 1 still yields a point-star
effect: for a `w × w` star box the odd-indexed vertices lie at distance
`w / 4` from the box center and the even-indexed vertices at `w / 2` — the
inner radius is half the outer radius, because the source computes
`ix = (ox * ratio) / 2`. -/
theorem star_point_distance (w : ℝ) (hw : 0 ≤ w) (i : ℕ) :
    Real.sqrt (distSqFrom (w / 2, w / 2)
        (star_point Real.cos Real.sin (2 * Real.pi) w w 5 i))
      = if i % 2 = 1 then w / 4 else w / 2 := by
  by_cases hp : i % 2 = 1
  · simp only [star_point, distSqFrom, hp, if_true]
    rw [sqrt_radial_dist
        (Real.cos (-(2 * Real.pi / 4) + (i : ℝ) * (2 * Real.pi / ((5 : ℕ) : ℝ) / 2)))
        (Real.sin (-(2 * Real.pi / 4) + (i : ℝ) * (2 * Real.pi / ((5 : ℕ) : ℝ) / 2)))
        (w / 2 * 1 / 2) (w / 2)
        (Real.sin_sq_add_cos_sq _) (by linarith)]
    ring
  · simp only [star_point, distSqFrom, hp, if_false]
    rw [sqrt_radial_dist
        (Real.cos (-(2 * Real.pi / 4) + (i : ℝ) * (2 * Real.pi / ((5 : ℕ) : ℝ) / 2)))
        (Real.sin (-(2 * Real.pi / 4) + (i : ℝ) * (2 * Real.pi / ((5 : ℕ) : ℝ) / 2)))
        (w / 2) (w / 2)
        (Real.sin_sq_add_cos_sq _) (by linarith)]

/-- Witness for `star_point_distance` at `w = 2`, `i = 1`. -/
theorem star_point_distance_witness :
    (0 : ℝ) ≤ 2 ∧
    Real.sqrt (distSqFrom ((2 : ℝ) / 2, (2 : ℝ) / 2)
        (star_point Real.cos Real.sin (2 * Real.pi) 2 2 5 1))
      = if 1 % 2 = 1 then (2 : ℝ) / 4 else (2 : ℝ) / 2 :=
  ⟨by norm_num, star_point_distance 2 (by norm_num) 1⟩

/-- **C6 counterexample.**  The wiggle loop runs over the first *half*
(`floor(numBumps / 2)` iterations touching indices `i` and `n - i - 1`), not
the first and last quarters: with 8 bump points, point 3 — squarely in the
middle half `[2, 6)` — is moved.  Stream constantly `500000` makes every
`random()` equal to `1/2`, so with wiggle magnitudes `(1, 1)` point 3 moves
from `(30, 0)` to `(30 + 1/2, 1/2)`. -/
theorem cloud_wiggle_counterexample :
    (wiggle_bump_points ⟨fun _ => 500000, 0⟩
        [(0, 0), (10, 0), (20, 0), (30, 0), (40, 0), (50, 0), (60, 0), (70, 0)]
        1 1).1[3]? = some (30 + 1 / 2, 1 / 2) ∧
    ((30 + 1 / 2 : ℚ), (1 / 2 : ℚ)) ≠ ((30 : ℚ), (0 : ℚ)) := by
  constructor
  · simp only [wiggle_bump_points]
    rw [show List.range
        (([(0, 0), (10, 0), (20, 0), (30, 0), (40, 0), (50, 0), (60, 0), (70, 0)]
          : List Vec2).length / 2) = [0, 1, 2, 3] from rfl]
    simp only [List.foldl_cons, List.foldl_nil, wiggleStep, pyRandomUnit,
      List.set, List.getD, List.getElem?_cons_zero, List.getElem?_cons_succ,
      vadd, List.length_cons, List.length_nil, Option.getD]
    norm_num
  · intro h
    have := congrArg Prod.fst h
    norm_num at this

/-- Helper for the amended C6: folding `wiggleStep` over indices all below
`n / 2` leaves the entry at index `n / 2` unchanged when `n` is odd (each
iteration writes only indices `i < n / 2` and `n - i - 1 > n / 2`). -/
theorem wiggle_fold_get_mid (n : ℕ) (mwx mwy : ℚ) (hodd : n % 2 = 1) :
    ∀ (is : List ℕ) (st : List Vec2 × PyRandom), (∀ i ∈ is, i < n / 2) →
      ((is.foldl (wiggleStep n mwx mwy) st).1)[n / 2]? = st.1[n / 2]?
  | [], _, _ => rfl
  | i :: tl, st, h => by
    have hi : i < n / 2 := h i (List.mem_cons_self i tl)
    have hne1 : i ≠ n / 2 := Nat.ne_of_lt hi
    have hne2 : n - i - 1 ≠ n / 2 := by omega
    rw [List.foldl_cons]
    have hstep : (wiggleStep n mwx mwy st i).1[n / 2]? = st.1[n / 2]? := by
      show ((st.1.set i _).set (n - i - 1) _)[n / 2]? = st.1[n / 2]?
      rw [List.getElem?_set_ne hne2, List.getElem?_set_ne hne1]
    exact (wiggle_fold_get_mid n mwx mwy hodd tl _
      (fun j hj => h j (List.mem_cons_of_mem i hj))).trans hstep

/-- **C6 (amended).**  The wiggle of `get_cloud_arcs` is applied to the first
`floor(n / 2)` and last `floor(n / 2)` bump points — every point when `n` is
even, all but the middle point when `n` is odd — rather than only the first
and last quarters; the middle point of an odd-length sequence keeps its exact
pill position, and the wiggle magnitude is zero in x when the width is under
20 and zero in y when the height is under 20. -/
theorem cloud_wiggle_amended (r : PyRandom) (pts : List Vec2) (mwx mwy : ℚ)
    (hodd : pts.length % 2 = 1) :
    (wiggle_bump_points r pts mwx mwy).1[pts.length / 2]? = pts[pts.length / 2]? ∧
    (∀ w p, w < 20 → maxWiggleX w p = 0) ∧
    (∀ h p, h < 20 → maxWiggleY h p = 0) := by
  refine ⟨?_, fun w p hw => if_pos hw, fun h p hh => if_pos hh⟩
  exact wiggle_fold_get_mid pts.length mwx mwy hodd
    (List.range (pts.length / 2)) (pts, r) (fun i hi => List.mem_range.mp hi)

/-- Witness for `cloud_wiggle_amended`: a concrete 5-point sequence whose
middle point survives the wiggle, plus the zero-magnitude cases. -/
theorem cloud_wiggle_amended_witness :
    ([(0, 0), (1, 0), (2, 0), (3, 0), (4, 0)] : List Vec2).length % 2 = 1 ∧
    (wiggle_bump_points ⟨fun _ => 500000, 0⟩
        [(0, 0), (1, 0), (2, 0), (3, 0), (4, 0)] 1 1).1[2]? = some ((2 : ℚ), (0 : ℚ)) ∧
    (10 : ℚ) < 20 ∧ maxWiggleX 10 7 = 0 ∧
    (19 : ℚ) < 20 ∧ maxWiggleY 19 7 = 0 := by
  have H := cloud_wiggle_amended ⟨fun _ => 500000, 0⟩
    [(0, 0), (1, 0), (2, 0), (3, 0), (4, 0)] 1 1 rfl
  exact ⟨rfl, H.1.trans rfl, by norm_num, H.2.1 10 7 (by norm_num),
    by norm_num, H.2.2 19 7 (by norm_num)⟩

/-- Helper: the per-segment dash loop (`setDashForLen` folds) only rewrites
the dash fields — transform, stack and line width are untouched. -/
theorem setDashFold_gstate {α : Type} [LinearOrderedField α] [FloorRing α]
    (sw : α) (ds : DashStyle) :
    ∀ (L : List α) (st : CtxState α),
      (L.foldl (setDashForLen sw ds) st).g.ctm = st.g.ctm ∧
      (L.foldl (setDashForLen sw ds) st).stack = st.stack ∧
      (L.foldl (setDashForLen sw ds) st).g.lineWidth = st.g.lineWidth
  | [], _ => ⟨rfl, rfl, rfl⟩
  | x :: tl, st => by
    rw [List.foldl_cons]
    have h := setDashFold_gstate sw ds tl (setDashForLen sw ds st x)
    simpa [setDashForLen, ctxSetDash] using h

/-- **C2 counterexample.**  `finalize_diamond` does not leave the context
transform as found: starting from the identity transform, a diamond with
rotation `π / 2` (sketchy draw style) exits with the context matrix rotated by
`π / 2`, which differs from the identity — there is no save/restore around
`ctx.rotate(shape.rotation)`. -/
theorem finalize_diamond_ctm_counterexample :
    (finalize_diamond_ctx Real.cos Real.sin Real.sqrt (Real.pi / 2)
        { dash := DashStyle.DRAW } 10 10 ⟨⟨idMat2, [], 0, 1⟩, []⟩).g.ctm
      ≠ (⟨⟨idMat2, [], 0, 1⟩, []⟩ : CtxState ℝ).g.ctm := by
  intro hEq
  have hb := congrArg Mat2.b hEq
  simp only [finalize_diamond_ctx, draw_sketchy_ctx, ctxRotate, ctxSetLineWidth,
    finalize_v2_label_ctx, matMul, rotMat, idMat2, reduceCtorEq,
    if_pos rfl] at hb
  rw [Real.sin_pi_div_two] at hb
  norm_num at hb

/-- **C2 (amended).**  What the finalizers actually do to the modelled
graphics state: each one composes the shape rotation onto the context
transform and leaves it there (the exit transform is the entry transform times
the rotation matrix, not the entry transform), while the save/restore stack is
left balanced; `finalize_cloud` preserves the dash state and line width
(`dash_cloud` wraps its changes in save/restore), and a sketchy-style diamond
preserves the dash state (the draw path never sets a dash). -/
theorem finalizers_transform_dash_effect {α : Type}
    [LinearOrderedField α] [FloorRing α]
    (cosf sinf sqrtf : α → α) (tau rotation : α) (style : Style) (w h : α)
    (st : CtxState α) :
    ((finalize_diamond_ctx cosf sinf sqrtf rotation style w h st).g.ctm
        = matMul st.g.ctm (rotMat (cosf rotation) (sinf rotation)) ∧
      (finalize_diamond_ctx cosf sinf sqrtf rotation style w h st).stack
        = st.stack) ∧
    ((finalize_star_ctx cosf sinf sqrtf tau rotation style w h st).g.ctm
        = matMul st.g.ctm (rotMat (cosf rotation) (sinf rotation)) ∧
      (finalize_star_ctx cosf sinf sqrtf tau rotation style w h st).stack
        = st.stack) ∧
    ((finalize_cloud_ctx cosf sinf rotation style w h st).g.ctm
        = matMul st.g.ctm (rotMat (cosf rotation) (sinf rotation)) ∧
      (finalize_cloud_ctx cosf sinf rotation style w h st).stack = st.stack ∧
      (finalize_cloud_ctx cosf sinf rotation style w h st).g.dashArray
        = st.g.dashArray ∧
      (finalize_cloud_ctx cosf sinf rotation style w h st).g.dashOffset
        = st.g.dashOffset ∧
      (finalize_cloud_ctx cosf sinf rotation style w h st).g.lineWidth
        = st.g.lineWidth) ∧
    ((finalize_diamond_ctx cosf sinf sqrtf rotation
        { style with dash := DashStyle.DRAW } w h st).g.dashArray
        = st.g.dashArray ∧
      (finalize_diamond_ctx cosf sinf sqrtf rotation
        { style with dash := DashStyle.DRAW } w h st).g.dashOffset
        = st.g.dashOffset) := by
  refine ⟨?_, ?_, ?_, ?_⟩
  · by_cases hd : style.dash = DashStyle.DRAW
    · simp [finalize_diamond_ctx, hd, draw_sketchy_ctx, ctxSetLineWidth,
        ctxRotate, finalize_v2_label_ctx]
    · have h := setDashFold_gstate
        (α := α) (((STROKE_WIDTHS style.size : ℚ) : α) * (809 / 500)) style.dash
      simp only [finalize_diamond_ctx, hd, if_false, dash_diamond_ctx,
        finalize_v2_label_ctx, ctxSetLineWidth, ctxRotate]
      exact ⟨((h _ _).1.trans rfl), ((h _ _).2.1.trans rfl)⟩
  · by_cases hd : style.dash = DashStyle.DRAW
    · simp [finalize_star_ctx, hd, draw_sketchy_ctx, ctxSetLineWidth,
        ctxRotate, finalize_v2_label_ctx]
    · have h := setDashFold_gstate
        (α := α) ((STROKE_WIDTHS style.size : ℚ) : α) style.dash
      simp only [finalize_star_ctx, hd, if_false, finalize_dash_geo_ctx,
        finalize_v2_label_ctx, ctxSetLineWidth, ctxRotate]
      exact ⟨((h _ _).1.trans rfl), ((h _ _).2.1.trans rfl)⟩
  · simp [finalize_cloud_ctx, dash_cloud_ctx, ctxSave, ctxRestore, ctxSetDash,
      ctxSetLineWidth, ctxRotate, finalize_v2_label_ctx]
  · simp [finalize_diamond_ctx, draw_sketchy_ctx, ctxSetLineWidth, ctxRotate,
      finalize_v2_label_ctx]

end BBB
